import Mathlib

/-!
Shallow embedding of the Python wrapper `src/python/alm/alm.py` of the ALM
force-constant package.  The wrapper validates inputs and forwards work to a
native engine (the `_alm` C extension, imported as `alm`).  Engine query
results are abstracted as an `Engine` record of functions; every call the
wrapper issues to the engine is recorded in an explicit trace, so theorems can
state that an error is raised before (or without) a given engine call.
Python exceptions are modelled by `PyError`; note that the Python statement
`raise("msg")` does not raise the message: raising a non-exception object
raises `TypeError("exceptions must derive from BaseException")`, and the
embedding reproduces that behaviour.
-/

namespace AlmPy

/-- Python exception kinds raised by the wrapper, with their messages. -/
inductive PyError : Type where
  | runtimeError (msg : String)
  | valueError (msg : String)
  | typeError (msg : String)
  | keyError (msg : String)
deriving DecidableEq, Repr

/-- One call from the Python wrapper into the `_alm` native engine, with the
arguments the wrapper passes (shapes for arrays, values where the claims need
them). -/
inductive EngineCall : Type where
  | setCell
  | setVerbosity (v : Int)
  | suggestCall
  | optimizeCall (solver : String)
  | defineCall (maxorder : Nat) (nbody : List Nat)
      (cutoffShape : Option (Nat × Nat × Nat)) (fcBasis : String)
  | generateForceConstant
  | setTrainingDataCall (udims fdims : List Nat)
  | setConstraintType (idOpt : Option Nat) (iconst : Nat)
  | getAtomMapping
  | getNumDispPatterns (order : Nat)
  | getNumDisplacedAtoms (order : Nat)
  | getDispPatternsCall (order : Nat)
  | getNumFcElements (order : Nat)
  | getNumIrredFcElements (order : Nat)
  | getFcOrigin
  | getFcIrreducible
  | getFcAll
  | setFcCall (fc : List Int)
  | getNrowsAmatCall
  | getMatrixElementsCall
  | getCvL1AlphaCall
  | getOptimizerControlCall
  | setOptimizerControlCall (optctrl : List (Option Int))
deriving DecidableEq, Repr

/-- Python-side state of an `ALM` object: `almId` models `self._id` (None
until `alm_new`), `maxorder` models `self._maxorder` (initialised to 1),
`iconst` models `self._iconst` (initialised to 11), `needTransfer` models
`self._need_transfer`, and `numAtoms`/`numNumbers` are `len(self._xcoord)`
and `len(self._numbers)`. -/
structure ALMState : Type where
  almId : Option Nat
  maxorder : Nat
  iconst : Nat
  needTransfer : Bool
  numAtoms : Nat
  numNumbers : Nat
  verbosity : Int
deriving DecidableEq, Repr

/-- Abstract results of the native engine queries the wrapper reads.  The
wrapper treats these as opaque; fields `fcOriginFill`, `fcIrredFill` hold the
(value, flattened-index-tuple) rows the engine writes into the arrays the
wrapper allocates, and `transAtom t a` is the image of supercell atom `a`
under the `t`-th pure translation. -/
structure Engine : Type where
  nfc : Nat → Nat
  nirredFc : Nat → Nat
  ntrans : Nat
  mapP2s : Nat → Nat
  numDispPatterns : Nat → Nat
  displacedAtomCounts : Nat → List Nat
  dispAtomIndices : Nat → List Nat
  dispDirections : Nat → List (Int × Int × Int)
  nbasis : Nat → Fin 2
  fcOriginFill : Nat → List (Int × List Nat)
  fcIrredFill : Nat → List (Int × List Nat)
  transAtom : Nat → Nat → Nat
  optimizeInfo : String → Int
  optctrlValues : List Int
  cvL1Alpha : Int
  nrowsAmat : Nat
  amatFill : List Int
  bvecFill : List Int

deriving instance DecidableEq for Except

/-- Result of one wrapper method: the returned value or raised exception, the
Python-side state after the call, and the trace of engine calls issued. -/
structure Outcome (α : Type) : Type where
  res : Except PyError α
  st : ALMState
  calls : List EngineCall
deriving DecidableEq, Repr

/-- Error raised by `_show_error_message` when `self._id is None`. -/
def uninitError : PyError :=
  .runtimeError "This ALM object has to be initialized by ALM::alm_new()"

/-- Error raised by `_set_cell` when atom-coordinate and atomic-number counts
disagree (message in the source reads, with an apostrophe, that the numbers
do not agree). -/
def cellSizeError : PyError :=
  .runtimeError "Numbers of atomic points and atomic numbers do not agree."

/-- Error raised by `get_displacement_patterns` and `get_fc` when
`fc_order > self._maxorder`. -/
def fcOrderError : PyError :=
  .valueError "The fc_order must not be larger than the maximum order (maxorder)."

/-- Error raised by `define` when an explicit nbody list has the wrong length. -/
def nbodySizeError : PyError :=
  .runtimeError "The size of nbody must be equal to maxorder."

/-- Error raised by `define` when the cutoff-radii element count is malformed. -/
def cutoffShapeError : PyError :=
  .runtimeError "The array shape of cutoff_radii is wrong."

/-- Error raised by `set_fc` when the injected vector length is wrong. -/
def sizeMismatchError : PyError :=
  .runtimeError "The size of the given force constant array is incorrect."

/-- Models `self._transfer_parameters()`: when `_need_transfer` is set,
`_set_cell` validates the cell (its id check, then the length comparison of
coordinates and numbers) and injects cell plus verbosity into the engine,
after which the flag is cleared; otherwise nothing happens. -/
def transferParameters (s : ALMState) : Outcome Unit :=
  if s.needTransfer then
    match s.almId with
    | none => ⟨.error uninitError, s, []⟩
    | some _ =>
      if s.numAtoms = s.numNumbers then
        ⟨.ok (), { s with needTransfer := false },
          [.setCell, .setVerbosity s.verbosity]⟩
      else ⟨.error cellSizeError, s, []⟩
  else ⟨.ok (), s, []⟩

/-- Models `ALM.set_constraint(translation, rotation)`.  There is no `_id`
check in this method.  On `rotation is True` the source executes
`raise("Rotational invariance is not supported in API.")`, which in Python 3
raises `TypeError("exceptions must derive from BaseException")` (a bare
string is not an exception), so the intended message is lost; the state and
the engine are left untouched.  Otherwise `_iconst` becomes 11 (translation)
or 10 and is sent to the engine together with `self._id`, initialised or
not. -/
def set_constraint (s : ALMState) (translation rotation : Bool) : Outcome Unit :=
  if rotation then
    ⟨.error (.typeError "exceptions must derive from BaseException"), s, []⟩
  else
    let iconst := if translation then 11 else 10
    ⟨.ok (), { s with iconst := iconst }, [.setConstraintType s.almId iconst]⟩

/-- Models `ALM.suggest()`: id check, parameter transfer, then the engine
suggest call. -/
def suggest (s : ALMState) : Outcome Unit :=
  match s.almId with
  | none => ⟨.error uninitError, s, []⟩
  | some _ =>
    let tr := transferParameters s
    match tr.res with
    | .error e => ⟨.error e, tr.st, tr.calls⟩
    | .ok _ => ⟨.ok (), tr.st, tr.calls ++ [.suggestCall]⟩

/-- Models `ALM.optimize(solver)`: id check, parameter transfer, solver-name
check against dense and SimplicialLDLT, then the engine fit returning its
info code. -/
def optimize (eng : Engine) (s : ALMState) (solver : String) : Outcome Int :=
  match s.almId with
  | none => ⟨.error uninitError, s, []⟩
  | some _ =>
    let tr := transferParameters s
    match tr.res with
    | .error e => ⟨.error e, tr.st, tr.calls⟩
    | .ok _ =>
      if solver = "dense" ∨ solver = "SimplicialLDLT" then
        ⟨.ok (eng.optimizeInfo solver), tr.st, tr.calls ++ [.optimizeCall solver]⟩
      else
        ⟨.error (.valueError "The given solver option is not supported."), tr.st, tr.calls⟩

/-- Python `str.lower()`: every character lowercased (the names the wrapper
compares against are ASCII). -/
def pyLower (str : String) : String :=
  ⟨str.data.map Char.toLower⟩

/-- Python `str.capitalize()`: first character uppercased, the rest
lowercased. -/
def pyCapitalize (str : String) : String :=
  match str.data with
  | [] => ""
  | c :: cs => ⟨c.toUpper :: cs.map Char.toLower⟩

/-- Basis-name normalisation in `define`: a string whose lowercase form is
`lattice` or `cartesian` is capitalized; any other string silently becomes
`Lattice`. -/
def fcBasisOf (b : String) : String :=
  if pyLower b = "lattice" ∨ pyLower b = "cartesian" then pyCapitalize b else "Lattice"

/-- Cutoff-radii element-count check in `define`: the total element count
`nelem` must be divisible by `maxorder` and the quotient must be a perfect
square.  The source computes `nkd = int(round(np.sqrt(nelem // maxorder)))`
and then tests `nkd ** 2 == nelem // maxorder` with exact integer
arithmetic; for element counts in range that accepts exactly the perfect
squares, which is what `Nat.sqrt` expresses here. -/
def cutoffCheck (maxorder nelem : Nat) : Bool :=
  decide ((nelem / maxorder) * maxorder = nelem) &&
    decide (Nat.sqrt (nelem / maxorder) * Nat.sqrt (nelem / maxorder) = nelem / maxorder)

/-- Models `ALM.define(maxorder, cutoff_radii, nbody, symmetrization_basis)`.
The cutoff-radii argument is carried as its total element count (the source
only ever uses `len(cutoff_radii.ravel())` and the reshape to
`(maxorder, nkd, nkd)`, recorded in the engine-call payload).  Order of
events as in the source: id check, parameter transfer, nbody defaulting or
length check, cutoff count checks, `self._maxorder = maxorder`, basis-name
normalisation, then the engine define and generate calls. -/
def define (s : ALMState) (maxorder : Nat) (cutoff : Option Nat)
    (nbodyOpt : Option (List Nat)) (symmetrization_basis : String) : Outcome Unit :=
  match s.almId with
  | none => ⟨.error uninitError, s, []⟩
  | some _ =>
    let tr := transferParameters s
    match tr.res with
    | .error e => ⟨.error e, tr.st, tr.calls⟩
    | .ok _ =>
      let nbodyRes : Except PyError (List Nat) :=
        match nbodyOpt with
        | none => .ok ((List.range maxorder).map fun i => i + 2)
        | some l => if l.length = maxorder then .ok l else .error nbodySizeError
      match nbodyRes with
      | .error e => ⟨.error e, tr.st, tr.calls⟩
      | .ok nbody =>
        let cutoffRes : Except PyError (Option (Nat × Nat × Nat)) :=
          match cutoff with
          | none => .ok none
          | some nelem =>
            if cutoffCheck maxorder nelem then
              .ok (some (maxorder, Nat.sqrt (nelem / maxorder), Nat.sqrt (nelem / maxorder)))
            else .error cutoffShapeError
        match cutoffRes with
        | .error e => ⟨.error e, tr.st, tr.calls⟩
        | .ok shaped =>
          ⟨.ok (), { tr.st with maxorder := maxorder },
            tr.calls ++ [.defineCall maxorder nbody shaped (fcBasisOf symmetrization_basis),
                         .generateForceConstant]⟩

/-- A numpy array abstracted by its shape (list of dimension sizes). -/
structure NdArray : Type where
  dims : List Nat
deriving DecidableEq, Repr

/-- Modelled from the spec: the validation performed inside the native
routine `alm.set_training_data` (C++ engine, not under src/) — "every
sample's displacement/force arrays must match atom count and dimensionality;
fails with `DataShapeMismatch` otherwise", with displacement and force
arrays of a sample sharing the atom count and ordering of the Structure.
The two arrays must have shape `(S, numAtoms, 3)` with a common sample
count `S`. -/
def engineTrainingCheck (numAtoms : Nat) (udims fdims : List Nat) : Bool :=
  match udims, fdims with
  | [su, nu, du], [sf, nf, df] =>
    su == sf && nu == numAtoms && du == 3 && nf == numAtoms && df == 3
  | _, _ => false

/-- Error raised (in the engine, modelled from the spec) when training-data
shapes do not match the structure. -/
def dataShapeMismatchError : PyError := .runtimeError "DataShapeMismatch"

/-- Models `ALM.set_training_data(u, f)`: id check, the wrapper's own
dimensionality checks (`u.ndim != 3`, `f.ndim != 3`), then the engine call,
whose validation against the structure is modelled from the spec
(`engineTrainingCheck`). -/
def set_training_data (s : ALMState) (u f : NdArray) : Outcome Unit :=
  match s.almId with
  | none => ⟨.error uninitError, s, []⟩
  | some _ =>
    if u.dims.length = 3 then
      if f.dims.length = 3 then
        if engineTrainingCheck s.numAtoms u.dims f.dims then
          ⟨.ok (), s, [.setTrainingDataCall u.dims f.dims]⟩
        else ⟨.error dataShapeMismatchError, s, [.setTrainingDataCall u.dims f.dims]⟩
      else ⟨.error (.runtimeError "Force array has to be three dimensions."), s, []⟩
    else ⟨.error (.runtimeError "Displacement array has to be three dimensions."), s, []⟩

/-- Row-major reshape of a flat list into `n` rows of `m` elements, as numpy
`reshape((n, -1))` produces when `m = length / n`. -/
def reshape2 (n m : Nat) (xs : List Nat) : List (List Nat) :=
  (List.range n).map fun i => (xs.drop (i * m)).take m

/-- Models `ALM.getmap_primitive_to_supercell()`: id check, a zero buffer of
length `len(self._xcoord)` filled by the engine mapping query, then numpy
`reshape((ntrans, -1))`, which succeeds exactly when `ntrans` is nonzero and
divides the buffer length, and raises `ValueError` otherwise. -/
def getmap_primitive_to_supercell (eng : Engine) (s : ALMState) :
    Outcome (List (List Nat)) :=
  match s.almId with
  | none => ⟨.error uninitError, s, []⟩
  | some _ =>
    let buf := (List.range s.numAtoms).map eng.mapP2s
    if eng.ntrans ≠ 0 ∧ s.numAtoms % eng.ntrans = 0 then
      ⟨.ok (reshape2 eng.ntrans (s.numAtoms / eng.ntrans) buf), s, [.getAtomMapping]⟩
    else ⟨.error (.valueError "cannot reshape array"), s, [.getAtomMapping]⟩

/-- Split a flat list into consecutive groups of the given sizes, as the
grouping loop at the end of `get_displacement_patterns` does. -/
def groupByCounts {α : Type} : List Nat → List α → List (List α)
  | [], _ => []
  | n :: ns, xs => xs.take n :: groupByCounts ns (xs.drop n)

/-- Models `ALM.get_displacement_patterns(fc_order)`: id check, the
`fc_order > self._maxorder` guard raising `ValueError` before any engine
query, then the engine queries and the grouping of (atom index, direction,
basis tag) tuples by per-pattern displaced-atom counts. -/
def get_displacement_patterns (eng : Engine) (s : ALMState) (fc_order : Nat) :
    Outcome (List (List (Nat × (Int × Int × Int) × String))) :=
  match s.almId with
  | none => ⟨.error uninitError, s, []⟩
  | some _ =>
    if s.maxorder < fc_order then ⟨.error fcOrderError, s, []⟩
    else
      let basis := if eng.nbasis fc_order = (0 : Fin 2) then "Cartesian" else "Fractional"
      let rows := ((eng.dispAtomIndices fc_order).zip (eng.dispDirections fc_order)).map
        fun p => (p.1, p.2, basis)
      ⟨.ok (groupByCounts (eng.displacedAtomCounts fc_order) rows), s,
        [.getNumDispPatterns fc_order, .getNumDisplacedAtoms fc_order,
         .getDispPatternsCall fc_order]⟩

/-- Modelled from the spec: the fill behaviour of the native routine
`alm.get_fc_all` (C++ engine, not under src/) — "all": full supercell
expansion, the origin set replicated through every primitive-cell
translation, each flattened index `3 * atom + xyz` carried to
`3 * transAtom t atom + xyz`. -/
def Engine.fcAllFill (eng : Engine) (order : Nat) : List (Int × List Nat) :=
  (List.range eng.ntrans).flatMap fun t =>
    (eng.fcOriginFill order).map fun ve =>
      (ve.1, ve.2.map fun e => 3 * eng.transAtom t (e / 3) + e % 3)

/-- Expansion of a list of (value, flattened indices) force-constant rows
through every primitive-cell translation of the engine, the claim-side
reading of "expanded through every primitive-cell translation of the
primitive-to-supercell map". -/
def expandThroughTranslations (eng : Engine) (rows : List (Int × List Nat)) :
    List (Int × List Nat) :=
  (List.range eng.ntrans).flatMap fun t =>
    rows.map fun ve => (ve.1, ve.2.map fun e => 3 * eng.transAtom t (e / 3) + e % 3)

/-- Models `ALM.get_fc(fc_order, mode)`: id check, the
`fc_order > self._maxorder` guard raising `ValueError`, then the mode
dispatch.  The returned pair is the allocated array length (from the engine
count queries, times `ntrans` in mode "all") and the rows the engine writes
into it; an unknown mode raises `ValueError`. -/
def get_fc (eng : Engine) (s : ALMState) (fc_order : Nat) (mode : String) :
    Outcome (Nat × List (Int × List Nat)) :=
  match s.almId with
  | none => ⟨.error uninitError, s, []⟩
  | some _ =>
    if s.maxorder < fc_order then ⟨.error fcOrderError, s, []⟩
    else if mode = "origin" then
      ⟨.ok (eng.nfc fc_order, eng.fcOriginFill fc_order), s,
        [.getNumFcElements fc_order, .getFcOrigin]⟩
    else if mode = "irreducible" ∨ mode = "irred" then
      ⟨.ok (eng.nirredFc fc_order, eng.fcIrredFill fc_order), s,
        [.getNumIrredFcElements fc_order, .getFcIrreducible]⟩
    else if mode = "all" then
      ⟨.ok (eng.nfc fc_order * eng.ntrans, eng.fcAllFill fc_order), s,
        [.getAtomMapping, .getNumFcElements fc_order, .getFcAll]⟩
    else ⟨.error (.valueError "Invalid mode in get_fc."), s, []⟩

/-- Models `ALM.set_fc(fc_in)`: id check, the sum of irreducible counts over
orders 1..maxorder queried from the engine, the length comparison raising on
mismatch, and the engine injection call only on a match. -/
def set_fc (eng : Engine) (s : ALMState) (fc_in : List Int) : Outcome Unit :=
  match s.almId with
  | none => ⟨.error uninitError, s, []⟩
  | some _ =>
    let qcalls : List EngineCall :=
      (List.range s.maxorder).map fun i => .getNumIrredFcElements (i + 1)
    let total := ((List.range s.maxorder).map fun i => eng.nirredFc (i + 1)).sum
    if total = fc_in.length then
      ⟨.ok (), s, qcalls ++ [.setFcCall fc_in]⟩
    else ⟨.error sizeMismatchError, s, qcalls⟩

/-- Models `ALM.get_matrix_elements()`: id check, row-count and irreducible
count queries, then the engine fill; the result carries the reshaped matrix
shape `(nrows, fc_length)` plus the engine-written entries. -/
def get_matrix_elements (eng : Engine) (s : ALMState) :
    Outcome ((Nat × Nat) × List Int × List Int) :=
  match s.almId with
  | none => ⟨.error uninitError, s, []⟩
  | some _ =>
    let fcLen := ((List.range s.maxorder).map fun i => eng.nirredFc (i + 1)).sum
    ⟨.ok ((eng.nrowsAmat, fcLen), eng.amatFill, eng.bvecFill), s,
      .getNrowsAmatCall ::
        ((List.range s.maxorder).map fun i => .getNumIrredFcElements (i + 1)) ++
        [.getMatrixElementsCall]⟩

/-- Models `ALM.get_cv_l1_alpha()`: id check, then the engine query. -/
def get_cv_l1_alpha (eng : Engine) (s : ALMState) : Outcome Int :=
  match s.almId with
  | none => ⟨.error uninitError, s, []⟩
  | some _ => ⟨.ok eng.cvL1Alpha, s, [.getCvL1AlphaCall]⟩

/-- The module-level tuple `optimizer_control_keys` of the source. -/
def optimizer_control_keys : List String :=
  ["linear_model", "use_sparse_solver", "maxnum_iteration", "tolerance_iteration",
   "output_frequency", "standardize", "displacement_normalization_factor",
   "debiase_after_l1opt", "cross_validation", "l1_alpha", "l1_alpha_min",
   "l1_alpha_max", "num_l1_alpha", "l1_ratio", "save_solution_path"]

/-- Models the `ALM.optimizer_control` property getter: id check, the engine
query, and the zip of the key tuple with the returned values. -/
def optimizer_control (eng : Engine) (s : ALMState) : Outcome (List (String × Int)) :=
  match s.almId with
  | none => ⟨.error uninitError, s, []⟩
  | some _ =>
    ⟨.ok (optimizer_control_keys.zip eng.optctrlValues), s, [.getOptimizerControlCall]⟩

/-- Models `ALM.set_optimizer_control(optcontrol)`: id check, `KeyError` on
the first key whose lowercase form is not a recognized key, otherwise one
value (or None) per recognized key is sent to the engine. -/
def set_optimizer_control (s : ALMState) (optcontrol : List (String × Int)) :
    Outcome Unit :=
  match s.almId with
  | none => ⟨.error uninitError, s, []⟩
  | some _ =>
    match optcontrol.find? (fun kv => !(optimizer_control_keys.contains (pyLower kv.1))) with
    | some kv =>
      ⟨.error (.keyError (kv.1 ++ " is not a valide key for optimizer control.")), s, []⟩
    | none =>
      let lowered := optcontrol.map fun kv => (pyLower kv.1, kv.2)
      let optctrl := optimizer_control_keys.map fun key =>
        (lowered.find? fun kv => kv.1 == key).map Prod.snd
      ⟨.ok (), s, [.setOptimizerControlCall optctrl]⟩

/-- Tests whether an engine call is the define call. -/
def isDefine : EngineCall → Bool
  | .defineCall _ _ _ _ => true
  | _ => false

/-- Tests whether an engine call injects force-constant coefficients. -/
def isSetFc : EngineCall → Bool
  | .setFcCall _ => true
  | _ => false

/-- On an initialized instance with consistent coordinate and number counts,
parameter transfer succeeds, clears the flag, and issues the cell and
verbosity calls exactly when the flag was set. -/
theorem transferParameters_ok (s : ALMState) (n : Nat) (hid : s.almId = some n)
    (hcell : s.numAtoms = s.numNumbers) :
    transferParameters s =
      ⟨.ok (), { s with needTransfer := false },
        if s.needTransfer then [.setCell, .setVerbosity s.verbosity] else []⟩ := by
  obtain ⟨i0, mo, ic, nt, na, nn, v⟩ := s
  simp only at hid hcell
  subst hid
  subst hcell
  cases nt <;> simp [transferParameters]

/-- Concrete engine fixture used by the witness theorems. -/
def engW : Engine where
  nfc := fun _ => 2
  nirredFc := fun o => o
  ntrans := 2
  mapP2s := fun a => a % 2
  numDispPatterns := fun _ => 1
  displacedAtomCounts := fun _ => [1]
  dispAtomIndices := fun _ => [0]
  dispDirections := fun _ => [(1, 0, 0)]
  nbasis := fun _ => 0
  fcOriginFill := fun _ => [(5, [0, 4]), (7, [1, 3])]
  fcIrredFill := fun _ => [(9, [0, 0])]
  transAtom := fun t a => a + 2 * t
  optimizeInfo := fun _ => 0
  optctrlValues := [0]
  cvL1Alpha := 3
  nrowsAmat := 6
  amatFill := []
  bvecFill := []

/-- Concrete initialized state fixture: id 0, maxorder 2, 4 atoms,
parameters already transferred. -/
def sInit : ALMState := ⟨some 0, 2, 11, false, 4, 4, 0⟩

/-- Concrete uninitialized state fixture (`alm_new` never called). -/
def sUninit : ALMState := ⟨none, 1, 11, true, 2, 2, 0⟩

/-- C1: on an initialized instance, `get_displacement_patterns(fc_order)` and
`get_fc(fc_order, mode)` with `fc_order > maxorder` raise `ValueError`
before any engine query (empty call trace), return no output, and leave the
instance state unchanged. -/
theorem claim_C1_fc_order_guard (eng : Engine) (s : ALMState) (n fc_order : Nat)
    (mode : String) (hid : s.almId = some n) (hord : s.maxorder < fc_order) :
    get_displacement_patterns eng s fc_order = ⟨.error fcOrderError, s, []⟩ ∧
    get_fc eng s fc_order mode = ⟨.error fcOrderError, s, []⟩ := by
  unfold get_displacement_patterns get_fc
  rw [hid]
  simp [hord]

/-- Witness for C1 at the concrete fixtures, `fc_order = 3 > maxorder = 2`. -/
theorem claim_C1_fc_order_guard_witness :
    get_displacement_patterns engW sInit 3 = ⟨.error fcOrderError, sInit, []⟩ ∧
    get_fc engW sInit 3 "origin" = ⟨.error fcOrderError, sInit, []⟩ :=
  claim_C1_fc_order_guard engW sInit 0 3 "origin" rfl (by decide)

/-- C2 (code bug): `set_constraint` with rotation True executes
`raise("Rotational invariance is not supported in API.")`; raising a bare
string makes Python 3 raise `TypeError("exceptions must derive from
BaseException")`, so the unsupported-constraint message never reaches the
caller.  The translational-constraint state (`_iconst`) and the engine are
untouched: the returned state is the input state and the call trace is
empty. -/
theorem claim_C2_rotation_raise (s : ALMState) (translation : Bool) :
    set_constraint s translation true =
      ⟨.error (.typeError "exceptions must derive from BaseException"), s, []⟩ := rfl

/-- C3: on an initialized instance, `set_fc(fc_in)` raises the size-mismatch
error exactly when the input length differs from the sum of irreducible
counts over orders 1..maxorder; the state is unchanged, on mismatch nothing
is injected into the engine, and on a match the vector is injected. -/
theorem claim_C3_set_fc_size (eng : Engine) (s : ALMState) (n : Nat) (fc_in : List Int)
    (hid : s.almId = some n) :
    (((set_fc eng s fc_in).res = .error sizeMismatchError) ↔
      fc_in.length ≠ ((List.range s.maxorder).map fun i => eng.nirredFc (i + 1)).sum) ∧
    (set_fc eng s fc_in).st = s ∧
    (fc_in.length ≠ ((List.range s.maxorder).map fun i => eng.nirredFc (i + 1)).sum →
      ∀ c ∈ (set_fc eng s fc_in).calls, isSetFc c = false) ∧
    (fc_in.length = ((List.range s.maxorder).map fun i => eng.nirredFc (i + 1)).sum →
      (set_fc eng s fc_in).res = .ok () ∧
        EngineCall.setFcCall fc_in ∈ (set_fc eng s fc_in).calls) := by
  unfold set_fc
  rw [hid]
  by_cases h : ((List.range s.maxorder).map fun i => eng.nirredFc (i + 1)).sum = fc_in.length
  · simp [h, isSetFc]
  · have hne : fc_in.length ≠
        ((List.range s.maxorder).map fun i => eng.nirredFc (i + 1)).sum :=
      fun hh => h hh.symm
    simp [if_neg h, isSetFc, hne]

/-- Witness for C3 at the concrete fixtures: with maxorder 2 the irreducible
counts sum to 1 + 2 = 3; a length-2 vector is rejected with nothing
injected, a length-3 vector is injected. -/
theorem claim_C3_set_fc_size_witness :
    (((set_fc engW sInit [1, 2]).res = .error sizeMismatchError) ↔
      ([1, 2] : List Int).length ≠
        ((List.range sInit.maxorder).map fun i => engW.nirredFc (i + 1)).sum) ∧
    (set_fc engW sInit [1, 2]).st = sInit ∧
    (([1, 2] : List Int).length ≠
        ((List.range sInit.maxorder).map fun i => engW.nirredFc (i + 1)).sum →
      ∀ c ∈ (set_fc engW sInit [1, 2]).calls, isSetFc c = false) ∧
    (([1, 2] : List Int).length =
        ((List.range sInit.maxorder).map fun i => engW.nirredFc (i + 1)).sum →
      (set_fc engW sInit [1, 2]).res = .ok () ∧
        EngineCall.setFcCall [1, 2] ∈ (set_fc engW sInit [1, 2]).calls) :=
  claim_C3_set_fc_size engW sInit 0 [1, 2] rfl

/-- C4 counterexample: `set_constraint` performs no initialization check.  On
an uninitialized instance (null id) it does not raise the
uninitialized-instance error: it records the constraint type and issues the
engine call with the null id. -/
theorem claim_C4_counterexample :
    set_constraint sUninit true false =
      ⟨.ok (), { sUninit with iconst := 11 }, [.setConstraintType none 11]⟩ ∧
    (set_constraint sUninit true false).res ≠ .error uninitError := by
  exact ⟨rfl, by decide⟩

/-- C4 amended: on an uninitialized instance every listed engine operation
except `set_constraint` fails immediately with the uninitialized-instance
error, with an empty engine-call trace and unchanged state. -/
theorem claim_C4_amended (eng : Engine) (s : ALMState) (hid : s.almId = none)
    (maxorder fc_order : Nat) (cutoff : Option Nat) (nbodyOpt : Option (List Nat))
    (basis mode solver : String) (u f : NdArray) (fc_in : List Int)
    (optcontrol : List (String × Int)) :
    suggest s = ⟨.error uninitError, s, []⟩ ∧
    optimize eng s solver = ⟨.error uninitError, s, []⟩ ∧
    define s maxorder cutoff nbodyOpt basis = ⟨.error uninitError, s, []⟩ ∧
    set_training_data s u f = ⟨.error uninitError, s, []⟩ ∧
    getmap_primitive_to_supercell eng s = ⟨.error uninitError, s, []⟩ ∧
    get_displacement_patterns eng s fc_order = ⟨.error uninitError, s, []⟩ ∧
    get_fc eng s fc_order mode = ⟨.error uninitError, s, []⟩ ∧
    set_fc eng s fc_in = ⟨.error uninitError, s, []⟩ ∧
    get_matrix_elements eng s = ⟨.error uninitError, s, []⟩ ∧
    get_cv_l1_alpha eng s = ⟨.error uninitError, s, []⟩ ∧
    optimizer_control eng s = ⟨.error uninitError, s, []⟩ ∧
    set_optimizer_control s optcontrol = ⟨.error uninitError, s, []⟩ := by
  unfold suggest optimize define set_training_data getmap_primitive_to_supercell
    get_displacement_patterns get_fc set_fc get_matrix_elements get_cv_l1_alpha
    optimizer_control set_optimizer_control
  rw [hid]
  exact ⟨rfl, rfl, rfl, rfl, rfl, rfl, rfl, rfl, rfl, rfl, rfl, rfl⟩

/-- Witness for the amended C4 at the concrete uninitialized fixture. -/
theorem claim_C4_amended_witness :
    suggest sUninit = ⟨.error uninitError, sUninit, []⟩ ∧
    optimize engW sUninit "dense" = ⟨.error uninitError, sUninit, []⟩ ∧
    define sUninit 1 none none "Lattice" = ⟨.error uninitError, sUninit, []⟩ ∧
    set_training_data sUninit ⟨[1, 2, 3]⟩ ⟨[1, 2, 3]⟩ = ⟨.error uninitError, sUninit, []⟩ ∧
    getmap_primitive_to_supercell engW sUninit = ⟨.error uninitError, sUninit, []⟩ ∧
    get_displacement_patterns engW sUninit 1 = ⟨.error uninitError, sUninit, []⟩ ∧
    get_fc engW sUninit 1 "origin" = ⟨.error uninitError, sUninit, []⟩ ∧
    set_fc engW sUninit [] = ⟨.error uninitError, sUninit, []⟩ ∧
    get_matrix_elements engW sUninit = ⟨.error uninitError, sUninit, []⟩ ∧
    get_cv_l1_alpha engW sUninit = ⟨.error uninitError, sUninit, []⟩ ∧
    optimizer_control engW sUninit = ⟨.error uninitError, sUninit, []⟩ ∧
    set_optimizer_control sUninit [] = ⟨.error uninitError, sUninit, []⟩ :=
  claim_C4_amended engW sUninit rfl 1 1 none none "Lattice" "origin" "dense"
    ⟨[1, 2, 3]⟩ ⟨[1, 2, 3]⟩ [] []

/-- The modelled engine-side training-data validation accepts exactly the
pairs of arrays of shape `(S, numAtoms, 3)` with a common sample count. -/
theorem engineTrainingCheck_eq_true (numAtoms : Nat) (ud fd : List Nat) :
    engineTrainingCheck numAtoms ud fd = true ↔
      ∃ S, ud = [S, numAtoms, 3] ∧ fd = [S, numAtoms, 3] := by
  constructor
  · intro h
    unfold engineTrainingCheck at h
    split at h
    · next su nu du sf nf df =>
      simp only [Bool.and_eq_true, beq_iff_eq] at h
      obtain ⟨⟨⟨⟨h1, h2⟩, h3⟩, h4⟩, h5⟩ := h
      exact ⟨su, by rw [h2, h3], by rw [h1, h4, h5]⟩
    · exact absurd h (by simp)
  · rintro ⟨S, hu, hf⟩
    subst hu
    subst hf
    simp [engineTrainingCheck]

/-- C5: on an initialized instance with `numAtoms` atoms,
`set_training_data(u, f)` raises an error at this very call whenever either
array is not three-dimensional or does not have shape `(S, numAtoms, 3)`;
with matching shapes the call succeeds. -/
theorem claim_C5_training_shape (s : ALMState) (n : Nat) (u f : NdArray)
    (hid : s.almId = some n) :
    ((u.dims.length ≠ 3 ∨ f.dims.length ≠ 3 ∨
        (¬ ∃ S, u.dims = [S, s.numAtoms, 3]) ∨ (¬ ∃ S, f.dims = [S, s.numAtoms, 3])) →
      ∃ e, (set_training_data s u f).res = .error e) ∧
    (∀ S, u.dims = [S, s.numAtoms, 3] → f.dims = [S, s.numAtoms, 3] →
      (set_training_data s u f).res = .ok ()) := by
  constructor
  · intro hbad
    unfold set_training_data
    rw [hid]
    by_cases hu : u.dims.length = 3
    · by_cases hf : f.dims.length = 3
      · by_cases hc : engineTrainingCheck s.numAtoms u.dims f.dims
        · exfalso
          obtain ⟨S, hus, hfs⟩ := (engineTrainingCheck_eq_true s.numAtoms u.dims f.dims).mp hc
          rcases hbad with hb | hb | hb | hb
          · exact hb hu
          · exact hb hf
          · exact hb ⟨S, hus⟩
          · exact hb ⟨S, hfs⟩
        · simp [hu, hf, hc]
      · simp [hu, hf]
    · simp [hu]
  · intro S hus hfs
    unfold set_training_data
    rw [hid]
    have hc : engineTrainingCheck s.numAtoms [S, s.numAtoms, 3] [S, s.numAtoms, 3] = true :=
      (engineTrainingCheck_eq_true s.numAtoms _ _).mpr ⟨S, rfl, rfl⟩
    simp [hus, hfs, hc]

/-- Witness for C5: the fixture has 4 atoms; a 2-dimensional displacement
array is rejected, and a pair of `(1, 4, 3)` arrays is accepted. -/
theorem claim_C5_training_shape_witness :
    (∃ e, (set_training_data sInit ⟨[2, 3]⟩ ⟨[1, 4, 3]⟩).res = .error e) ∧
    (set_training_data sInit ⟨[1, 4, 3]⟩ ⟨[1, 4, 3]⟩).res = .ok () :=
  ⟨(claim_C5_training_shape sInit 0 ⟨[2, 3]⟩ ⟨[1, 4, 3]⟩ rfl).1 (Or.inl (by decide)),
   (claim_C5_training_shape sInit 0 ⟨[1, 4, 3]⟩ ⟨[1, 4, 3]⟩ rfl).2 1 (by decide) (by decide)⟩

/-- C6: on an initialized instance, `define` with `nbody=None` passes the
default list `[2, 3, ..., maxorder + 1]` (entry `i + 2` at position `i`) to
the engine define call, and `define` with an explicit nbody list of the
wrong length raises immediately: the engine define operation is never
issued, the configured maxorder is unchanged, and when no parameter
transfer was pending no engine call at all is made. -/
theorem claim_C6_define_nbody (s : ALMState) (n maxorder : Nat) (basis : String)
    (l : List Nat) (hid : s.almId = some n) (hcell : s.numAtoms = s.numNumbers)
    (hlen : l.length ≠ maxorder) :
    ((define s maxorder none none basis).res = .ok () ∧
     EngineCall.defineCall maxorder ((List.range maxorder).map fun i => i + 2) none
       (fcBasisOf basis) ∈ (define s maxorder none none basis).calls ∧
     (∀ i, i < maxorder →
       ((List.range maxorder).map fun j => j + 2).get? i = some (i + 2))) ∧
    ((define s maxorder none (some l) basis).res = .error nbodySizeError ∧
     (define s maxorder none (some l) basis).st.maxorder = s.maxorder ∧
     (∀ c ∈ (define s maxorder none (some l) basis).calls, isDefine c = false) ∧
     (s.needTransfer = false → (define s maxorder none (some l) basis).calls = [])) := by
  have htr := transferParameters_ok s n hid hcell
  constructor
  · unfold define
    rw [hid, htr]
    refine ⟨rfl, by simp, ?_⟩
    intro i hi
    simp [List.get?_map, List.get?_range, hi]
  · unfold define
    rw [hid, htr]
    simp only [if_neg hlen]
    refine ⟨trivial, trivial, ?_, ?_⟩
    · intro c hc
      rcases hnt : s.needTransfer with _ | _ <;> rw [hnt] at hc <;> simp at hc
      rcases hc with h1 | h1 <;> rw [h1] <;> rfl
    · intro hnt
      simp [hnt]

/-- Witness for C6 at the concrete fixtures, maxorder 2, a length-1 nbody
list. -/
theorem claim_C6_define_nbody_witness :
    ((define sInit 2 none none "Lattice").res = .ok () ∧
     EngineCall.defineCall 2 ((List.range 2).map fun i => i + 2) none
       (fcBasisOf "Lattice") ∈ (define sInit 2 none none "Lattice").calls ∧
     (∀ i, i < 2 → ((List.range 2).map fun j => j + 2).get? i = some (i + 2))) ∧
    ((define sInit 2 none (some [2]) "Lattice").res = .error nbodySizeError ∧
     (define sInit 2 none (some [2]) "Lattice").st.maxorder = sInit.maxorder ∧
     (∀ c ∈ (define sInit 2 none (some [2]) "Lattice").calls, isDefine c = false) ∧
     (sInit.needTransfer = false →
       (define sInit 2 none (some [2]) "Lattice").calls = [])) :=
  claim_C6_define_nbody sInit 0 2 "Lattice" [2] rfl rfl (by decide)

/-- The cutoff-radii element-count check of `define` accepts exactly the
counts of the form `maxorder * k ^ 2`, with `k = 0` allowed. -/
theorem cutoffCheck_iff (maxorder nelem : Nat) (hm : 0 < maxorder) :
    cutoffCheck maxorder nelem = true ↔ ∃ k : Nat, nelem = maxorder * k ^ 2 := by
  unfold cutoffCheck
  simp only [Bool.and_eq_true, decide_eq_true_eq]
  constructor
  · rintro ⟨h1, h2⟩
    refine ⟨Nat.sqrt (nelem / maxorder), ?_⟩
    rw [pow_two, h2, Nat.mul_comm]
    exact h1.symm
  · rintro ⟨k, rfl⟩
    have hq : maxorder * k ^ 2 / maxorder = k ^ 2 := Nat.mul_div_cancel_left _ hm
    constructor
    · rw [hq, Nat.mul_comm]
    · rw [hq, pow_two, Nat.sqrt_eq]

/-- C7 counterexample: at `maxorder = 1` a cutoff-radii argument with total
element count 0 (an empty array) is accepted by `define`, yet there is no
positive `k` with `0 = 1 * k ^ 2`: the claimed "iff ... for some positive
integer k" fails in the accepting direction. -/
theorem claim_C7_counterexample :
    (define sInit 1 (some 0) none "Lattice").res = .ok () ∧
    ¬ ∃ k : Nat, 0 < k ∧ 0 = 1 * k ^ 2 := by
  constructor
  · rfl
  · rintro ⟨k, hk, he⟩
    rw [one_mul] at he
    exact (pow_pos hk 2).ne' he.symm

/-- C7 amended: on an initialized instance with `maxorder ≥ 1`, `define`
accepts a cutoff-radii argument exactly when its total element count is
`maxorder * k ^ 2` for some nonnegative integer `k` (the empty array,
`k = 0`, included), in which case the engine receives it reshaped to
`(maxorder, k, k)`; otherwise the malformed-shape error is raised and the
engine define call is never issued.  The decision depends only on maxorder
and the element count, never on the species of the structure. -/
theorem claim_C7_amended (s : ALMState) (n maxorder nelem : Nat) (basis : String)
    (hid : s.almId = some n) (hm : 0 < maxorder) (hcell : s.numAtoms = s.numNumbers) :
    ((define s maxorder (some nelem) none basis).res = .ok () ↔
      ∃ k : Nat, nelem = maxorder * k ^ 2) ∧
    ((¬ ∃ k : Nat, nelem = maxorder * k ^ 2) →
      (define s maxorder (some nelem) none basis).res = .error cutoffShapeError ∧
      ∀ c ∈ (define s maxorder (some nelem) none basis).calls, isDefine c = false) ∧
    ((∃ k : Nat, nelem = maxorder * k ^ 2) →
      EngineCall.defineCall maxorder ((List.range maxorder).map fun i => i + 2)
        (some (maxorder, Nat.sqrt (nelem / maxorder), Nat.sqrt (nelem / maxorder)))
        (fcBasisOf basis) ∈ (define s maxorder (some nelem) none basis).calls) := by
  have htr := transferParameters_ok s n hid hcell
  by_cases hc : cutoffCheck maxorder nelem = true
  · have hex := (cutoffCheck_iff maxorder nelem hm).mp hc
    unfold define
    rw [hid, htr]
    dsimp only
    rw [if_pos hc]
    exact ⟨iff_of_true rfl hex, fun hn => absurd hex hn, fun _ => by simp⟩
  · have hex : ¬ ∃ k : Nat, nelem = maxorder * k ^ 2 :=
      fun hh => hc ((cutoffCheck_iff maxorder nelem hm).mpr hh)
    unfold define
    rw [hid, htr]
    dsimp only
    rw [if_neg hc]
    refine ⟨iff_of_false (by simp) hex, fun _ => ⟨rfl, ?_⟩, fun hh => absurd hh hex⟩
    intro c hc2
    rcases hnt : s.needTransfer with _ | _ <;> rw [hnt] at hc2 <;> simp at hc2
    rcases hc2 with h1 | h1 <;> rw [h1] <;> rfl

/-- Witness for the amended C7 at the concrete fixtures: maxorder 2 with 8
elements is accepted (`8 = 2 * 2 ^ 2`) and reshaped to `(2, 2, 2)`. -/
theorem claim_C7_amended_witness :
    ((define sInit 2 (some 8) none "Lattice").res = .ok () ↔
      ∃ k : Nat, 8 = 2 * k ^ 2) ∧
    ((¬ ∃ k : Nat, 8 = 2 * k ^ 2) →
      (define sInit 2 (some 8) none "Lattice").res = .error cutoffShapeError ∧
      ∀ c ∈ (define sInit 2 (some 8) none "Lattice").calls, isDefine c = false) ∧
    ((∃ k : Nat, 8 = 2 * k ^ 2) →
      EngineCall.defineCall 2 ((List.range 2).map fun i => i + 2)
        (some (2, Nat.sqrt (8 / 2), Nat.sqrt (8 / 2)))
        (fcBasisOf "Lattice") ∈ (define sInit 2 (some 8) none "Lattice").calls) :=
  claim_C7_amended sInit 0 2 8 "Lattice" rfl (by decide) rfl

/-- The translation expansion produces `ntrans` copies of the input rows. -/
theorem expandThroughTranslations_length (eng : Engine) (rows : List (Int × List Nat)) :
    (expandThroughTranslations eng rows).length = eng.ntrans * rows.length := by
  unfold expandThroughTranslations
  rw [List.length_flatMap]
  simp only [Function.comp_def, List.length_map, List.map_const', List.sum_replicate,
    smul_eq_mul]
  rw [List.length_range]

/-- C8: on an initialized instance with a valid order, the rows returned by
`get_fc(order, "all")` are exactly the rows of `get_fc(order, "origin")`
expanded through every primitive-cell translation, and both the allocated
array length and the row count in mode "all" are `ntrans` times those of
mode "origin". -/
theorem claim_C8_fc_expansion (eng : Engine) (s : ALMState) (n fc_order : Nat)
    (hid : s.almId = some n) (hord : fc_order ≤ s.maxorder) :
    ∃ (allocO allocA : Nat) (fillO fillA : List (Int × List Nat)),
      (get_fc eng s fc_order "origin").res = .ok (allocO, fillO) ∧
      (get_fc eng s fc_order "all").res = .ok (allocA, fillA) ∧
      fillA = expandThroughTranslations eng fillO ∧
      allocA = eng.ntrans * allocO ∧
      fillA.length = eng.ntrans * fillO.length := by
  have hlt : ¬ s.maxorder < fc_order := Nat.not_lt.mpr hord
  refine ⟨eng.nfc fc_order, eng.nfc fc_order * eng.ntrans,
    eng.fcOriginFill fc_order, eng.fcAllFill fc_order, ?_, ?_, rfl,
    Nat.mul_comm _ _, expandThroughTranslations_length eng _⟩
  · unfold get_fc
    rw [hid]
    dsimp only
    rw [if_neg hlt, if_pos rfl]
  · unfold get_fc
    rw [hid]
    dsimp only
    rw [if_neg hlt, if_neg (by decide : ¬("all" : String) = "origin"),
      if_neg (by decide : ¬(("all" : String) = "irreducible" ∨ ("all" : String) = "irred")),
      if_pos rfl]

/-- Witness for C8 at the concrete fixtures, order 1. -/
theorem claim_C8_fc_expansion_witness :
    ∃ (allocO allocA : Nat) (fillO fillA : List (Int × List Nat)),
      (get_fc engW sInit 1 "origin").res = .ok (allocO, fillO) ∧
      (get_fc engW sInit 1 "all").res = .ok (allocA, fillA) ∧
      fillA = expandThroughTranslations engW fillO ∧
      allocA = engW.ntrans * allocO ∧
      fillA.length = engW.ntrans * fillO.length :=
  claim_C8_fc_expansion engW sInit 0 1 rfl (by decide)

/-- Rows produced by `reshape2` all have length `m` when the input list has
length `n * m`. -/
theorem reshape2_row_length (n m : Nat) (xs : List Nat) (hlen : xs.length = n * m) :
    ∀ r ∈ reshape2 n m xs, r.length = m := by
  intro r hr
  unfold reshape2 at hr
  simp only [List.mem_map, List.mem_range] at hr
  obtain ⟨i, hi, rfl⟩ := hr
  have h1 : i * m + m ≤ n * m := by
    have h2 : i + 1 ≤ n := hi
    calc i * m + m = (i + 1) * m := by ring
      _ ≤ n * m := Nat.mul_le_mul_right m h2
  rw [List.length_take, List.length_drop, hlen]
  exact Nat.min_eq_left (Nat.le_sub_of_add_le (by rw [Nat.add_comm]; exact h1))

/-- C9: on an initialized instance with `numAtoms` atoms, when the engine
reports `ntrans` pure translations with `ntrans` dividing the atom count
(the Symmetry Engine guarantee), `getmap_primitive_to_supercell` returns a
two-dimensional array of shape `(ntrans, numAtoms / ntrans)` whose total
element count is `numAtoms`. -/
theorem claim_C9_map_shape (eng : Engine) (s : ALMState) (n : Nat)
    (hid : s.almId = some n) (hnz : eng.ntrans ≠ 0) (hdvd : eng.ntrans ∣ s.numAtoms) :
    ∃ rows : List (List Nat),
      (getmap_primitive_to_supercell eng s).res = .ok rows ∧
      rows.length = eng.ntrans ∧
      (∀ r ∈ rows, r.length = s.numAtoms / eng.ntrans) ∧
      (rows.map List.length).sum = s.numAtoms := by
  have hmod : s.numAtoms % eng.ntrans = 0 := Nat.mod_eq_zero_of_dvd hdvd
  have hbuf : ((List.range s.numAtoms).map eng.mapP2s).length =
      eng.ntrans * (s.numAtoms / eng.ntrans) := by
    rw [List.length_map, List.length_range]
    exact (Nat.mul_div_cancel' hdvd).symm
  refine ⟨reshape2 eng.ntrans (s.numAtoms / eng.ntrans)
      ((List.range s.numAtoms).map eng.mapP2s), ?_, ?_, ?_, ?_⟩
  · unfold getmap_primitive_to_supercell
    rw [hid]
    dsimp only
    rw [if_pos ⟨hnz, hmod⟩]
  · unfold reshape2
    simp
  · exact reshape2_row_length _ _ _ hbuf
  · have hrep : (reshape2 eng.ntrans (s.numAtoms / eng.ntrans)
        ((List.range s.numAtoms).map eng.mapP2s)).map List.length =
        List.replicate eng.ntrans (s.numAtoms / eng.ntrans) := by
      rw [List.eq_replicate_iff]
      constructor
      · simp [reshape2]
      · intro x hx
        simp only [List.mem_map] at hx
        obtain ⟨r, hr, rfl⟩ := hx
        exact reshape2_row_length _ _ _ hbuf r hr
    rw [hrep, List.sum_replicate, smul_eq_mul]
    exact Nat.mul_div_cancel' hdvd

/-- Witness for C9 at the concrete fixtures: 4 atoms, 2 translations. -/
theorem claim_C9_map_shape_witness :
    ∃ rows : List (List Nat),
      (getmap_primitive_to_supercell engW sInit).res = .ok rows ∧
      rows.length = engW.ntrans ∧
      (∀ r ∈ rows, r.length = sInit.numAtoms / engW.ntrans) ∧
      (rows.map List.length).sum = sInit.numAtoms :=
  claim_C9_map_shape engW sInit 0 rfl (by decide) (by decide)

/-- C10: on an initialized instance, `define` with a symmetrization-basis
string whose lowercase form is neither lattice nor cartesian does not raise:
it silently passes the basis name Lattice to the engine define call, while
exactly the two recognized names (matched case-insensitively) are passed
capitalized. -/
theorem claim_C10_basis_fallback (s : ALMState) (n maxorder : Nat) (basis : String)
    (hid : s.almId = some n) (hcell : s.numAtoms = s.numNumbers)
    (hbad1 : pyLower basis ≠ "lattice") (hbad2 : pyLower basis ≠ "cartesian") :
    (define s maxorder none none basis).res = .ok () ∧
    EngineCall.defineCall maxorder ((List.range maxorder).map fun i => i + 2) none "Lattice"
      ∈ (define s maxorder none none basis).calls ∧
    (∀ b : String, pyLower b = "lattice" ∨ pyLower b = "cartesian" →
      fcBasisOf b = pyCapitalize b) := by
  have hfb : fcBasisOf basis = "Lattice" := by
    unfold fcBasisOf
    rw [if_neg]
    rintro (h | h)
    · exact hbad1 h
    · exact hbad2 h
  have htr := transferParameters_ok s n hid hcell
  refine ⟨?_, ?_, ?_⟩
  · unfold define
    rw [hid, htr]
  · unfold define
    rw [hid, htr]
    dsimp only
    rw [hfb]
    simp
  · intro b hb
    unfold fcBasisOf
    rw [if_pos hb]

/-- Witness for C10 at the concrete fixtures with the unrecognized basis
string foo. -/
theorem claim_C10_basis_fallback_witness :
    (define sInit 2 none none "foo").res = .ok () ∧
    EngineCall.defineCall 2 ((List.range 2).map fun i => i + 2) none "Lattice"
      ∈ (define sInit 2 none none "foo").calls ∧
    (∀ b : String, pyLower b = "lattice" ∨ pyLower b = "cartesian" →
      fcBasisOf b = pyCapitalize b) :=
  claim_C10_basis_fallback sInit 0 2 "foo" rfl rfl (by decide) (by decide)

end AlmPy
